import Mathlib

/-
Shallow embedding of `src/EthereumExplorer.js` (class `EthereumExplorer`).

The class is a thin wrapper around a web3 client: the mutable instance
fields (`contractDetails`, `contracts`, `defaultOptions`, `userAccount`,
`callbacks`) become an explicit state record, the web3/provider side
becomes an environment record holding the values the chain queries would
yield, and each method becomes a pure function from state and environment
to result, new state, and the list of chain effects it performs.

JavaScript semantics that the source relies on are modelled explicitly:
truthiness (`0`, `""`, `null`, `undefined` are falsy; objects, arrays and
promises are truthy), loose string comparison on ABI names, JS-object
key/value maps as association lists with overwrite-on-assign, and the
un-awaited promise produced by `this.web3.eth.getGasPrice()` in
`getGasPrice` (the source stores the promise itself, not its resolved
value; `GasValue.promise` captures exactly that).
-/

namespace EthExp

/-- Lookup in a JS object used as a string-keyed map (`obj[key]`); `none` is
JS `undefined`. -/
def jsGet {β : Type} : List (String × β) → String → Option β
  | [], _ => none
  | (k, v) :: rest, key => if k = key then some v else jsGet rest key

/-- Assignment `obj[key] = v` on a JS object used as a map: overwrites the
entry for `key` if present, otherwise adds it. -/
def jsSet {β : Type} : List (String × β) → String → β → List (String × β)
  | [], key, v => [(key, v)]
  | (k, w) :: rest, key, v =>
      if k = key then (key, v) :: rest else (k, w) :: jsSet rest key v

/-- Lookup with a numeric key (`contractJson.networks[netId]`). -/
def natGet {β : Type} : List (Nat × β) → Nat → Option β
  | [], _ => none
  | (k, v) :: rest, key => if k = key then some v else natGet rest key

/-- JS truthiness of a nullable string field such as `this.userAccount` or
an ABI entry's `stateMutability`: `null`/`undefined` and `""` are falsy. -/
def strTruthy : Option String → Bool
  | none => false
  | some s => s ≠ ""

/-- A value that can sit in a gas/nonce/value slot: JS `null` (the initial
cache value), a number, or a pending promise (what the un-awaited
`this.web3.eth.getGasPrice()` call returns; its payload is the numeric
value the query would eventually resolve to, `none` when the query yields
no value). -/
inductive GasValue where
  | nullv
  | num (n : Nat)
  | promise (pending : Option Nat)
  deriving DecidableEq, Repr

/-- JS truthiness of a `GasValue`: `null` is falsy, the number `0` is
falsy, every other number is truthy, and a promise object is always
truthy, resolved or not. -/
def GasValue.truthy : GasValue → Bool
  | .nullv => false
  | .num n => n ≠ 0
  | .promise _ => true

/-- One entry of a contract ABI as `methodTypeIs` inspects it: its `name`
and `stateMutability` fields, each possibly absent (JS `undefined`). -/
structure AbiEntry where
  name : Option String
  stateMutability : Option String
  deriving DecidableEq, Repr

/-- The record stored in `this.contractDetails[contractName]` by
`loadContact`: address, ABI and name. The ABI is `none` when a falsy
(null/undefined) ABI was registered; a present array, even empty, is
`some`. -/
structure ContractDetail where
  address : String
  abi : Option (List AbiEntry)
  contractName : String
  deriving DecidableEq, Repr

/-- The `new this.web3.eth.Contract(contractAbi, contractAddress)` handle
stored in `this.contracts[contractName]`, modelled by the two values it is
built from. -/
structure ContractHandle where
  abi : Option (List AbiEntry)
  address : String
  deriving DecidableEq, Repr

/-- The `this.defaultOptions` cache of gas defaults, both initialized to
JS `null` by the constructor. -/
structure DefaultOptions where
  gasLimit : GasValue
  gasPrice : GasValue
  deriving DecidableEq, Repr

/-- The mutable instance state of an `EthereumExplorer` object (the
`callbacks` table is function-valued and is modelled separately below). -/
structure EthereumExplorer where
  contractDetails : List (String × ContractDetail)
  contracts : List (String × ContractHandle)
  defaultOptions : DefaultOptions
  userAccount : Option String
  deriving DecidableEq, Repr

/-- The state produced by the constructor: empty registries, null gas
defaults, null user account. -/
def initExplorer : EthereumExplorer :=
  { contractDetails := []
    contracts := []
    defaultOptions := { gasLimit := .nullv, gasPrice := .nullv }
    userAccount := none }

/-- The block object returned by `getBlock`, restricted to the field the
class reads. -/
structure BlockInfo where
  gasLimit : Nat
  deriving DecidableEq, Repr

/-- The web3/provider environment: the values the chain queries made by
the class would yield. `gasPriceResult` is the value the gas-price query
would eventually resolve to (`none`: no value); `latestBlock` is the
result of `getBlock('latest')` (`none`: block not retrievable). -/
structure Web3Env where
  netId : Nat
  txCount : Nat
  gasPriceResult : Option Nat
  latestBlock : Option BlockInfo
  accounts : List String
  deriving DecidableEq, Repr

/-- The observable chain-side effects of a method, in the order they are
issued. -/
inductive ChainEffect where
  | txCountQuery
  | gasPriceQuery
  | blockQuery
  | encodeAbi
  | signTx
  | sendSignedTx
  | contractSend
  deriving DecidableEq, Repr

/-- Source `loadContact(contractAddress, contractAbi, contractName)`:
stores the detail record under the name and builds the web3 contract
handle, overwriting any previous registration of that name. -/
def loadContact (ee : EthereumExplorer) (contractAddress : String)
    (contractAbi : Option (List AbiEntry)) (contractName : String) :
    EthereumExplorer :=
  { ee with
    contractDetails := jsSet ee.contractDetails contractName
      { address := contractAddress, abi := contractAbi
        contractName := contractName }
    contracts := jsSet ee.contracts contractName
      { abi := contractAbi, address := contractAddress } }

/-- Source `contractDetail(contractName)`: plain registry lookup. -/
def contractDetail (ee : EthereumExplorer) (contractName : String) :
    Option ContractDetail :=
  jsGet ee.contractDetails contractName

/-- Source `contract(contractName)`: plain registry lookup. -/
def contract (ee : EthereumExplorer) (contractName : String) :
    Option ContractHandle :=
  jsGet ee.contracts contractName

/-- The JSON artifact consumed by `loadContractFromJson`: a map from
network id to the deployment address recorded for that network, plus the
ABI. -/
structure ContractJson where
  networks : List (Nat × String)
  abi : Option (List AbiEntry)
  deriving DecidableEq, Repr

/-- Source `loadContractFromJson(contractJson, contractName)`: resolves
the current network id, throws when the artifact's network map has no
entry for it, otherwise delegates to `loadContact` with the per-network
address and the artifact's ABI. -/
def loadContractFromJson (ee : EthereumExplorer) (env : Web3Env)
    (contractJson : ContractJson) (contractName : String) :
    Except String EthereumExplorer :=
  match natGet contractJson.networks env.netId with
  | none => .error
      ("The network ID does not exist in the JSON of the contract. Probably you have to change network. Current network: "
        ++ toString env.netId)
  | some addr => .ok (loadContact ee addr contractJson.abi contractName)

/-- The value `methodTypeIs` returns: JS `null`, a falsy pass-through of
the entry's raw `stateMutability` field (JS `a && b` returns `a` when `a`
is falsy, so a missing or empty mutability string is returned as itself),
or a genuine boolean. -/
inductive MutCheck where
  | null
  | falsy (v : Option String)
  | bool (b : Bool)
  deriving DecidableEq, Repr

/-- Source `methodTypeIs(type, method, contractName)`: guarded by the
truthiness of the detail record and its `abi` field, filters the ABI for
entries whose `name` equals `method`, returns JS `null` when the filter is
empty, else evaluates `fnc[0].stateMutability && fnc[0].stateMutability == type`. -/
def methodTypeIs (ee : EthereumExplorer) (type method contractName : String) :
    MutCheck :=
  match contractDetail ee contractName with
  | some cd =>
    match cd.abi with
    | some abi =>
      match abi.filter (fun item => item.name == some method) with
      | [] => .null
      | fnc0 :: _ =>
        match fnc0.stateMutability with
        | some sm => if sm ≠ "" then .bool (sm == type) else .falsy (some "")
        | none => .falsy none
    | none => .null
  | none => .null

/-- A JavaScript value as the `call` dispatch distinguishes them. -/
inductive JsVal where
  | null
  | undef
  | bool (b : Bool)
  | num (n : Int)
  | str (s : String)
  | arr (elems : List JsVal)
  | obj (fields : List (String × JsVal))

/-- Strict equality with `null` (`param === null`): only the `null` value
itself, not `undefined`. -/
def JsVal.isNull : JsVal → Bool
  | .null => true
  | _ => false

/-- JS `typeof` on the modelled values (`typeof null` is `"object"`). -/
def JsVal.typeof : JsVal → String
  | .null => "object"
  | .undef => "undefined"
  | .bool _ => "boolean"
  | .num _ => "number"
  | .str _ => "string"
  | .arr _ => "object"
  | .obj _ => "object"

/-- Spreading a value into an argument list (`f(...v)`): arrays spread
their elements, strings their characters; every other value is not
iterable and the spread throws a TypeError (`none`). -/
def JsVal.spreadArgs : JsVal → Option (List JsVal)
  | .arr xs => some xs
  | .str s => some (s.toList.map (fun c => JsVal.str (String.mk [c])))
  | _ => none

/-- The argument shape a `call` invocation hands to the contract method. -/
inductive CallShape where
  | noArgs
  | withArgs (args : List JsVal)

/-- The argument dispatch of source `call`: `param === null` invokes with
no arguments, `typeof param == 'object'` spreads `param`, anything else is
passed as a single positional argument. `none` is a thrown TypeError. -/
def callArgShape (param : JsVal) : Option CallShape :=
  if param.isNull then some .noArgs
  else if param.typeof = "object" then (param.spreadArgs).map .withArgs
  else some (.withArgs [param])

/-- Source `call(method, param, contractName, options)` up to the opaque
transport: which contract handle, method and argument shape the read-only
invocation dispatches. `none` is a thrown TypeError (unregistered contract
name, or spreading a non-iterable object). -/
def call (ee : EthereumExplorer) (method : String) (param : JsVal)
    (contractName : String) : Option (ContractHandle × String × CallShape) :=
  match jsGet ee.contracts contractName with
  | none => none
  | some handle => (callArgShape param).map (fun sh => (handle, method, sh))

/-- Source `getGasLimit(fromCache)`: returns the cached value when it is
truthy and `fromCache` holds; otherwise awaits `getBlock('latest')` and,
when a block comes back, caches and returns its gas limit, else returns
JS `null`. Result: value, new cache, whether a block query was issued. -/
def getGasLimit (st : DefaultOptions) (env : Web3Env) (fromCache : Bool) :
    GasValue × DefaultOptions × Bool :=
  if st.gasLimit.truthy && fromCache then (st.gasLimit, st, false)
  else
    match env.latestBlock with
    | some b =>
        (GasValue.num b.gasLimit, { st with gasLimit := GasValue.num b.gasLimit }, true)
    | none => (GasValue.nullv, st, true)

/-- Source `getGasPrice(fromCache)`: returns the cached value when it is
truthy and `fromCache` holds; otherwise calls `this.web3.eth.getGasPrice()`
WITHOUT awaiting it, so the local `gasPrice` is a promise object — always
truthy — which is cached and returned as-is; the `return null` branch is
unreachable. Result: value, new cache, whether the query was issued. -/
def getGasPrice (st : DefaultOptions) (env : Web3Env) (fromCache : Bool) :
    GasValue × DefaultOptions × Bool :=
  if st.gasPrice.truthy && fromCache then (st.gasPrice, st, false)
  else
    let gasPrice := GasValue.promise env.gasPriceResult
    if gasPrice.truthy then (gasPrice, { st with gasPrice := gasPrice }, true)
    else (GasValue.nullv, st, true)

/-- The `options` object accepted by `getTransactionData` and
`sendTxToSmartContract`; absent fields are JS `undefined`, modelled as the
falsy `GasValue.nullv`. -/
structure TxOptions where
  nonce : GasValue
  gasPrice : GasValue
  gasLimit : GasValue
  value : GasValue
  deriving DecidableEq, Repr

/-- An `options` literal `{}` with no fields set. -/
def emptyOpts : TxOptions :=
  { nonce := .nullv, gasPrice := .nullv, gasLimit := .nullv, value := .nullv }

/-- The transaction object assembled by `getTransactionData` (plus the
`value` field `sendTxToSmartContract` may add). -/
structure TxData where
  fromAddr : String
  toAddr : String
  nonce : GasValue
  gasPrice : GasValue
  gasLimit : GasValue
  value : GasValue
  deriving DecidableEq, Repr

/-- Source `getTransactionData(from, to, options)`: each field is
`options.x || <live query>`, so a truthy option short-circuits the query;
otherwise the nonce comes from `getTransactionCount`, and the gas fields
from `getGasPrice(false)` and `getGasLimit(false)` — both called with the
cache explicitly bypassed. Result: tx data, new cache, effects in issue
order. -/
def getTransactionData (st : DefaultOptions) (env : Web3Env)
    (fromAddr toAddr : String) (options : TxOptions) :
    TxData × DefaultOptions × List ChainEffect :=
  let nonceStep :=
    if options.nonce.truthy then (options.nonce, ([] : List ChainEffect))
    else (GasValue.num env.txCount, [ChainEffect.txCountQuery])
  let gasPriceStep :=
    if options.gasPrice.truthy then (options.gasPrice, st, ([] : List ChainEffect))
    else
      let r := getGasPrice st env false
      (r.1, r.2.1, [ChainEffect.gasPriceQuery])
  let gasLimitStep :=
    if options.gasLimit.truthy then (options.gasLimit, gasPriceStep.2.1, ([] : List ChainEffect))
    else
      let r := getGasLimit gasPriceStep.2.1 env false
      (r.1, r.2.1, [ChainEffect.blockQuery])
  ({ fromAddr := fromAddr, toAddr := toAddr
     nonce := nonceStep.1, gasPrice := gasPriceStep.1
     gasLimit := gasLimitStep.1, value := .nullv },
   gasLimitStep.2.1,
   nonceStep.2 ++ gasPriceStep.2.2 ++ gasLimitStep.2.2)

/-- Source `sendTxToSmartContract(fromAddress, fromPrivateKey, contractFnc,
contractData, options, contractName)`: throws the literal string
`'Contract address not found!'` when the name has no registered detail
record — before any chain query or signing; otherwise assembles the tx
data, copies a truthy `options.value` into it, and takes the self-signed
path (encode, sign, broadcast raw) when the private key is truthy, else
the provider-signed path (contract send). Result: thrown-or-returned
value, new state, effects in issue order. -/
def sendTxToSmartContract (ee : EthereumExplorer) (env : Web3Env)
    (fromAddress : String) (fromPrivateKey : Option String)
    (contractFnc : String) (contractData : List JsVal) (options : TxOptions)
    (contractName : String) :
    Except String TxData × EthereumExplorer × List ChainEffect :=
  match jsGet ee.contractDetails contractName with
  | none => (.error "Contract address not found!", ee, [])
  | some cd =>
    let r := getTransactionData ee.defaultOptions env fromAddress cd.address options
    let txData := if options.value.truthy then { r.1 with value := options.value } else r.1
    let ee' := { ee with defaultOptions := r.2.1 }
    if strTruthy fromPrivateKey then
      (.ok txData, ee',
        r.2.2 ++ [ChainEffect.encodeAbi, ChainEffect.signTx, ChainEffect.sendSignedTx])
    else
      (.ok txData, ee', r.2.2 ++ [ChainEffect.contractSend])

/-- Source `getUserAccount()`: returns the cached account when truthy;
otherwise awaits `getAccounts`, stores `accounts[0]` (JS `undefined`,
i.e. `none`, when the list is empty) and returns it. Result: value, new
state, whether the provider was queried. -/
def getUserAccount (ee : EthereumExplorer) (env : Web3Env) :
    Option String × EthereumExplorer × Bool :=
  if strTruthy ee.userAccount then (ee.userAccount, ee, false)
  else (env.accounts.head?, { ee with userAccount := env.accounts.head? }, true)

/-- Source `on(eventName, callback)` acting on the `this.callbacks` table:
a callback function is always truthy, so the table is written only when
nothing is registered under the name yet — first registration wins. -/
def onEvent {α : Type} (callbacks : List (String × α)) (eventName : String)
    (cb : α) : List (String × α) :=
  if (jsGet callbacks eventName).isNone then jsSet callbacks eventName cb
  else callbacks

/-- Source `emit(eventName, data)`: invokes the registered callback with
the data when one is present, else returns `undefined` (`none`). -/
def emit {δ ρ : Type} (callbacks : List (String × (δ → ρ)))
    (eventName : String) (data : δ) : Option ρ :=
  (jsGet callbacks eventName).map (fun cb => cb data)

/-- A two-entry sample ABI: a `view` getter and a `nonpayable` setter. -/
def abi1 : List AbiEntry :=
  [{ name := some "getUser", stateMutability := some "view" },
   { name := some "updateUser", stateMutability := some "nonpayable" }]

/-- A session with the sample contract registered under `"default"`. -/
def eeView : EthereumExplorer :=
  loadContact initExplorer "0xabc" (some abi1) "default"

/-- The contract handle `loadContact` builds for the sample contract. -/
def handle1 : ContractHandle := { abi := some abi1, address := "0xabc" }

/-- A sample environment where every chain query succeeds. -/
def envA : Web3Env :=
  { netId := 5, txCount := 7, gasPriceResult := some 20,
    latestBlock := some { gasLimit := 30000000 }, accounts := ["0xme"] }

/-- A sample environment where the gas-price query yields no value, the
latest block is not retrievable and the account list is empty. -/
def envNone : Web3Env :=
  { netId := 5, txCount := 7, gasPriceResult := none,
    latestBlock := none, accounts := [] }

/-- A gas-defaults cache with both values already populated. -/
def cachedDefaults : DefaultOptions :=
  { gasLimit := GasValue.num 6, gasPrice := GasValue.num 5 }

/-- Writing a key into a JS-object map and reading the same key back
yields the written value. -/
theorem jsGet_jsSet_self {β : Type} (m : List (String × β)) (k : String)
    (v : β) : jsGet (jsSet m k v) k = some v := by
  induction m with
  | nil => simp [jsGet, jsSet]
  | cons hd tl ih =>
    obtain ⟨k', v'⟩ := hd
    by_cases h : k' = k
    · simp [jsSet, h, jsGet]
    · simp [jsSet, h, jsGet, ih]

/-- C9: registering `(A, B)` under name `N` makes `contractDetail N`
return exactly address `A`, ABI `B` (and name `N`), and the contract
accessor the handle built from them; re-registering `(A', B')` under the
same `N` overwrites the entry entirely, so both accessors afterwards
reflect only `(A', B')`. -/
theorem loadContact_register_overwrite (ee : EthereumExplorer)
    (a a' : String) (b b' : Option (List AbiEntry)) (n : String) :
    contractDetail (loadContact ee a b n) n =
      some { address := a, abi := b, contractName := n }
  ∧ contract (loadContact ee a b n) n = some { abi := b, address := a }
  ∧ contractDetail (loadContact (loadContact ee a b n) a' b' n) n =
      some { address := a', abi := b', contractName := n }
  ∧ contract (loadContact (loadContact ee a b n) a' b' n) n =
      some { abi := b', address := a' } := by
  refine ⟨?_, ?_, ?_, ?_⟩ <;>
    simp [contractDetail, contract, loadContact, jsGet_jsSet_self]

/-- C4: the callback table holds at most one callback per event name and
the first registration wins: starting from a table with nothing under
`e`, after `on(e, cb1)` then `on(e, cb2)` the callback stored under `e`
is still `cb1` and `emit(e, d)` invokes exactly `cb1` on `d`; `emit` on a
table with nothing under `e` is a no-op. -/
theorem onEvent_first_registration_wins {δ ρ : Type}
    (callbacks : List (String × (δ → ρ))) (e : String) (cb1 cb2 : δ → ρ)
    (d : δ) (h : jsGet callbacks e = none) :
    jsGet (onEvent (onEvent callbacks e cb1) e cb2) e = some cb1
  ∧ emit (onEvent (onEvent callbacks e cb1) e cb2) e d = some (cb1 d)
  ∧ emit callbacks e d = none := by
  have h1 : onEvent callbacks e cb1 = jsSet callbacks e cb1 := by
    simp [onEvent, h]
  have h2 : jsGet (jsSet callbacks e cb1) e = some cb1 := jsGet_jsSet_self ..
  have h3 : onEvent (jsSet callbacks e cb1) e cb2 = jsSet callbacks e cb1 := by
    simp [onEvent, h2]
  refine ⟨?_, ?_, ?_⟩
  · rw [h1, h3]; exact h2
  · rw [h1, h3]; simp [emit, h2]
  · simp [emit, h]

/-- C4 witness: on the previously empty name `"error"`, registering `cb1`
then `cb2` keeps `cb1`, and emitting the payload `3` invokes `cb1` on it. -/
theorem onEvent_first_registration_wins_witness :
    jsGet (onEvent (onEvent ([] : List (String × (Nat → Nat))) "error"
        (fun n => n + 1)) "error" (fun n => n * 2)) "error" =
      some (fun n => n + 1)
  ∧ emit (onEvent (onEvent ([] : List (String × (Nat → Nat))) "error"
        (fun n => n + 1)) "error" (fun n => n * 2)) "error" 3 = some 4
  ∧ emit ([] : List (String × (Nat → Nat))) "error" 3 = none := by
  have h := onEvent_first_registration_wins
    ([] : List (String × (Nat → Nat))) "error"
    (fun n => n + 1) (fun n => n * 2) 3 rfl
  exact ⟨h.1, h.2.1, h.2.2⟩

/-- C7: submitting a transaction against a contract name with no
registered detail record throws the literal `'Contract address not
found!'` string with no chain query, signing or broadcast performed and
the session state unchanged. -/
theorem sendTx_unregistered (ee : EthereumExplorer) (env : Web3Env)
    (fromAddress : String) (fromPrivateKey : Option String)
    (contractFnc : String) (contractData : List JsVal) (options : TxOptions)
    (contractName : String)
    (h : jsGet ee.contractDetails contractName = none) :
    sendTxToSmartContract ee env fromAddress fromPrivateKey contractFnc
        contractData options contractName =
      (.error "Contract address not found!", ee, []) := by
  simp [sendTxToSmartContract, h]

/-- C7 witness: on a fresh session, submitting against the unregistered
name `"Users"` fails with the exact error, no effects, state unchanged. -/
theorem sendTx_unregistered_witness :
    sendTxToSmartContract initExplorer envA "0xme" none "updateUser" []
        emptyOpts "Users" =
      (.error "Contract address not found!", initExplorer, []) :=
  sendTx_unregistered initExplorer envA "0xme" none "updateUser" []
    emptyOpts "Users" rfl

/-- C8: registration from a compiled artifact fails with the
network-mismatch error exactly when the connected network id is absent
from the artifact's network map, and otherwise delegates to `loadContact`
with the per-network deployment address and the artifact's ABI. -/
theorem loadContractFromJson_networkGuard (ee : EthereumExplorer)
    (env : Web3Env) (json : ContractJson) (n : String) :
    (natGet json.networks env.netId = none →
      loadContractFromJson ee env json n =
        .error ("The network ID does not exist in the JSON of the contract. Probably you have to change network. Current network: "
          ++ toString env.netId))
  ∧ (∀ addr, natGet json.networks env.netId = some addr →
      loadContractFromJson ee env json n =
        .ok (loadContact ee addr json.abi n)
      ∧ contractDetail (loadContact ee addr json.abi n) n =
          some { address := addr, abi := json.abi, contractName := n }) := by
  constructor
  · intro h
    simp [loadContractFromJson, h]
  · intro addr h
    refine ⟨by simp [loadContractFromJson, h], ?_⟩
    simp [contractDetail, loadContact, jsGet_jsSet_self]

/-- C8 witness: with network id 5, an artifact whose map has an entry for
5 registers that address and ABI; an artifact with an empty map fails
with the network-mismatch error. -/
theorem loadContractFromJson_networkGuard_witness :
    loadContractFromJson initExplorer envA
        { networks := [(5, "0xdead")], abi := some abi1 } "Users" =
      .ok (loadContact initExplorer "0xdead" (some abi1) "Users")
  ∧ contractDetail (loadContact initExplorer "0xdead" (some abi1) "Users")
        "Users" =
      some { address := "0xdead", abi := some abi1, contractName := "Users" }
  ∧ loadContractFromJson initExplorer envA
        { networks := [], abi := some abi1 } "Users" =
      .error ("The network ID does not exist in the JSON of the contract. Probably you have to change network. Current network: "
        ++ toString envA.netId) := by
  have h1 := (loadContractFromJson_networkGuard initExplorer envA
    { networks := [(5, "0xdead")], abi := some abi1 } "Users").2 "0xdead" rfl
  have h2 := (loadContractFromJson_networkGuard initExplorer envA
    { networks := [], abi := some abi1 } "Users").1 rfl
  exact ⟨h1.1, h1.2, h2⟩

/-- C1 counterexample: with the sample contract registered and its ABI
present, querying a method name that matches no ABI entry returns JS
`null`, not `false` as the claim states. -/
theorem methodTypeIs_noMatch_counterexample :
    methodTypeIs eeView "view" "missing" "default" = MutCheck.null
  ∧ MutCheck.null ≠ MutCheck.bool false := by
  constructor
  · decide
  · decide

/-- C1 (amended): `methodTypeIs` returns JS `null` when the contract or
its ABI is absent AND ALSO when no ABI entry's name equals the queried
method; when the first matching entry carries a declared (truthy)
mutability string, it returns the boolean stating whether that string
equals the queried mutability kind. -/
theorem methodTypeIs_mutability (ee : EthereumExplorer)
    (type method contractName : String) :
    (contractDetail ee contractName = none →
      methodTypeIs ee type method contractName = MutCheck.null)
  ∧ (∀ cd, contractDetail ee contractName = some cd → cd.abi = none →
      methodTypeIs ee type method contractName = MutCheck.null)
  ∧ (∀ cd entries, contractDetail ee contractName = some cd →
      cd.abi = some entries →
      entries.filter (fun item => item.name == some method) = [] →
      methodTypeIs ee type method contractName = MutCheck.null)
  ∧ (∀ cd entries fnc0 rest sm, contractDetail ee contractName = some cd →
      cd.abi = some entries →
      entries.filter (fun item => item.name == some method) = fnc0 :: rest →
      fnc0.stateMutability = some sm → sm ≠ "" →
      methodTypeIs ee type method contractName = MutCheck.bool (sm == type)) := by
  refine ⟨?_, ?_, ?_, ?_⟩
  · intro h; simp [methodTypeIs, h]
  · intro cd h1 h2; simp [methodTypeIs, h1, h2]
  · intro cd entries h1 h2 h3; simp [methodTypeIs, h1, h2, h3]
  · intro cd entries fnc0 rest sm h1 h2 h3 h4 h5
    simp [methodTypeIs, h1, h2, h3, h4, h5]

/-- C1 witness: on a fresh session the introspection is `null`; on the
sample contract, `getUser` is declared `view`, so the `view` query is
`true` and the `payable` query is `false`. -/
theorem methodTypeIs_mutability_witness :
    methodTypeIs initExplorer "view" "getUser" "default" = MutCheck.null
  ∧ methodTypeIs eeView "view" "getUser" "default" = MutCheck.bool true
  ∧ methodTypeIs eeView "payable" "getUser" "default" = MutCheck.bool false := by
  have hd : contractDetail eeView "default" =
      some { address := "0xabc", abi := some abi1, contractName := "default" } := by
    decide
  have hf : abi1.filter (fun item => item.name == some "getUser") =
      ({ name := some "getUser", stateMutability := some "view" } : AbiEntry) :: [] := by
    decide
  refine ⟨(methodTypeIs_mutability initExplorer "view" "getUser" "default").1 rfl,
    ?_, ?_⟩
  · have h := (methodTypeIs_mutability eeView "view" "getUser" "default").2.2.2
      { address := "0xabc", abi := some abi1, contractName := "default" } abi1
      { name := some "getUser", stateMutability := some "view" } [] "view"
      hd rfl hf rfl (by decide)
    simpa using h
  · have h := (methodTypeIs_mutability eeView "payable" "getUser" "default").2.2.2
      { address := "0xabc", abi := some abi1, contractName := "default" } abi1
      { name := some "getUser", stateMutability := some "view" } [] "view"
      hd rfl hf rfl (by decide)
    simpa using h

/-- C6: `getGasLimit true` with a truthy cached gas limit returns the
cached value with no block query; `getGasLimit false` always queries the
latest block and, when one comes back, refreshes the cache with its gas
limit and returns it, else returns JS `null`. -/
theorem getGasLimit_cachePattern (st : DefaultOptions) (env : Web3Env) :
    (st.gasLimit.truthy = true →
      getGasLimit st env true = (st.gasLimit, st, false))
  ∧ (∀ b, env.latestBlock = some b →
      getGasLimit st env false =
        (GasValue.num b.gasLimit,
         { st with gasLimit := GasValue.num b.gasLimit }, true))
  ∧ (env.latestBlock = none →
      getGasLimit st env false = (GasValue.nullv, st, true)) := by
  refine ⟨?_, ?_, ?_⟩
  · intro h; simp [getGasLimit, h]
  · intro b hb; simp [getGasLimit, hb]
  · intro hb; simp [getGasLimit, hb]

/-- C6 witness: with a cached limit of 6, the cached read returns 6 with
no query; the bypassing read queries the 30000000-gas-limit block and
refreshes the cache; with no retrievable block it returns JS `null`. -/
theorem getGasLimit_cachePattern_witness :
    getGasLimit cachedDefaults envA true = (GasValue.num 6, cachedDefaults, false)
  ∧ getGasLimit cachedDefaults envA false =
      (GasValue.num 30000000,
       { cachedDefaults with gasLimit := GasValue.num 30000000 }, true)
  ∧ getGasLimit cachedDefaults envNone false =
      (GasValue.nullv, cachedDefaults, true) := by
  refine ⟨?_, ?_, ?_⟩
  · exact (getGasLimit_cachePattern cachedDefaults envA).1 (by decide)
  · exact (getGasLimit_cachePattern cachedDefaults envA).2.1
      { gasLimit := 30000000 } rfl
  · exact (getGasLimit_cachePattern cachedDefaults envNone).2.2 rfl

/-- C3 counterexample: with an empty cache and a gas-price query that
yields no value, `getGasPrice` does not return JS `null` as the claim
states: it returns the un-awaited promise object and caches that
promise, not a resolved numeric value. -/
theorem getGasPrice_promise_counterexample :
    (getGasPrice { gasLimit := GasValue.nullv, gasPrice := GasValue.nullv }
        envNone true).1 = GasValue.promise none
  ∧ (getGasPrice { gasLimit := GasValue.nullv, gasPrice := GasValue.nullv }
        envNone true).1 ≠ GasValue.nullv
  ∧ (getGasPrice { gasLimit := GasValue.nullv, gasPrice := GasValue.nullv }
        envNone true).2.1.gasPrice = GasValue.promise none := by
  decide

/-- C3 (amended): `getGasPrice` follows the gas-limit caching pattern on
the read side — truthy cached value plus `fromCache` returns the cache
with no live query — but on a cache miss it issues the live query WITHOUT
awaiting it, caching and returning the promise object itself; since a
promise is always truthy the `null` branch is unreachable and the
function never returns JS `null`. -/
theorem getGasPrice_cachePattern (st : DefaultOptions) (env : Web3Env)
    (fromCache : Bool) :
    ((st.gasPrice.truthy && fromCache) = true →
      getGasPrice st env fromCache = (st.gasPrice, st, false))
  ∧ ((st.gasPrice.truthy && fromCache) = false →
      getGasPrice st env fromCache =
        (GasValue.promise env.gasPriceResult,
         { st with gasPrice := GasValue.promise env.gasPriceResult }, true))
  ∧ (getGasPrice st env fromCache).1 ≠ GasValue.nullv := by
  refine ⟨?_, ?_, ?_⟩
  · intro h; simp [getGasPrice, h]
  · intro h
    simp only [getGasPrice]
    rw [h]
    simp [GasValue.truthy]
  · by_cases h : (st.gasPrice.truthy && fromCache) = true
    · obtain ⟨ht, -⟩ : st.gasPrice.truthy = true ∧ fromCache = true := by
        simpa using h
      have hne : st.gasPrice ≠ GasValue.nullv := by
        intro hc
        rw [hc] at ht
        exact absurd ht (by simp [GasValue.truthy])
      simpa [getGasPrice, h] using hne
    · have h' : (st.gasPrice.truthy && fromCache) = false := by
        revert h; cases (st.gasPrice.truthy && fromCache) <;> simp
      simp only [getGasPrice]
      rw [h']
      simp [GasValue.truthy]

/-- C3 witness: with a cached price of 5 the cached read returns 5 with
no query; the bypassing read returns and caches the promise of the live
query; the result is never JS `null`. -/
theorem getGasPrice_cachePattern_witness :
    getGasPrice cachedDefaults envA true = (GasValue.num 5, cachedDefaults, false)
  ∧ getGasPrice cachedDefaults envA false =
      (GasValue.promise (some 20),
       { cachedDefaults with gasPrice := GasValue.promise (some 20) }, true)
  ∧ (getGasPrice cachedDefaults envA true).1 ≠ GasValue.nullv := by
  have h := getGasPrice_cachePattern cachedDefaults envA true
  have h2 := getGasPrice_cachePattern cachedDefaults envA false
  exact ⟨h.1 (by decide), h2.2.1 (by decide), h.2.2⟩

/-- C10: with nothing cached and an empty provider account list,
`getUserAccount` returns an absent value, leaves the cache unpopulated
and a subsequent call queries the provider again; a cached non-empty
account is returned on every later call without querying the provider. -/
theorem getUserAccount_cache (ee : EthereumExplorer) (env : Web3Env) :
    (ee.userAccount = none → env.accounts = [] →
      getUserAccount ee env = (none, ee, true)
      ∧ (getUserAccount (getUserAccount ee env).2.1 env).2.2 = true)
  ∧ (∀ a, ee.userAccount = some a → a ≠ "" →
      getUserAccount ee env = (some a, ee, false))
  ∧ (∀ a rest, ee.userAccount = none → env.accounts = a :: rest → a ≠ "" →
      getUserAccount ee env = (some a, { ee with userAccount := some a }, true)
      ∧ ∀ env2, getUserAccount { ee with userAccount := some a } env2 =
          (some a, { ee with userAccount := some a }, false)) := by
  refine ⟨?_, ?_, ?_⟩
  · intro h1 h2
    have he : { ee with userAccount := (none : Option String) } = ee := by
      cases ee
      simp_all
    have hrun : getUserAccount ee env = (none, ee, true) := by
      simp [getUserAccount, strTruthy, h1, h2, he]
    refine ⟨hrun, ?_⟩
    show (getUserAccount (getUserAccount ee env).2.1 env).2.2 = true
    rw [hrun]
    show (getUserAccount ee env).2.2 = true
    rw [hrun]
  · intro a h1 ha
    simp [getUserAccount, strTruthy, h1, ha]
  · intro a rest h1 h2 ha
    constructor
    · simp [getUserAccount, strTruthy, h1, h2]
    · intro env2
      simp [getUserAccount, strTruthy, ha]

/-- C10 witness: an empty account list yields an absent result, an
unpopulated cache and a re-query on the next call; after caching
`"0xme"`, a later call returns it without querying even in an
environment with no accounts. -/
theorem getUserAccount_cache_witness :
    getUserAccount initExplorer envNone = (none, initExplorer, true)
  ∧ (getUserAccount (getUserAccount initExplorer envNone).2.1 envNone).2.2 = true
  ∧ getUserAccount initExplorer envA =
      (some "0xme", { initExplorer with userAccount := some "0xme" }, true)
  ∧ getUserAccount { initExplorer with userAccount := some "0xme" } envNone =
      (some "0xme", { initExplorer with userAccount := some "0xme" }, false) := by
  have h1 := (getUserAccount_cache initExplorer envNone).1 rfl rfl
  have h3 := (getUserAccount_cache initExplorer envA).2.2 "0xme" [] rfl rfl
    (by decide)
  exact ⟨h1.1, h1.2, h3.1, h3.2 envNone⟩

/-- C2 counterexample: with both gas defaults already cached and empty
options, `getTransactionData` still issues the gas-price and block
queries, and its gas fields come from those fresh queries, not from the
cached 5 and 6. -/
theorem getTransactionData_cached_counterexample :
    (getTransactionData cachedDefaults envA "0xme" "0xabc" emptyOpts).2.2 =
      [ChainEffect.txCountQuery, ChainEffect.gasPriceQuery, ChainEffect.blockQuery]
  ∧ (getTransactionData cachedDefaults envA "0xme" "0xabc" emptyOpts).1.gasPrice ≠
      GasValue.num 5
  ∧ (getTransactionData cachedDefaults envA "0xme" "0xabc" emptyOpts).1.gasLimit ≠
      GasValue.num 6
  ∧ cachedDefaults.gasPrice = GasValue.num 5
  ∧ cachedDefaults.gasLimit = GasValue.num 6 := by
  decide

/-- C2 (amended): `getTransactionData` never reads the cached defaults:
whenever an option field is not truthy it issues the corresponding fresh
chain query — it calls the gas resolvers with the cache explicitly
bypassed — and the transaction fields carry the freshly queried values
(the promise of the live gas-price query; the latest block's gas limit,
or JS `null` when no block comes back), even when cached defaults are
present. -/
theorem getTransactionData_freshQueries (st : DefaultOptions) (env : Web3Env)
    (fromA toA : String) (options : TxOptions)
    (hn : options.nonce.truthy = false)
    (hp : options.gasPrice.truthy = false)
    (hl : options.gasLimit.truthy = false) :
    (getTransactionData st env fromA toA options).1.nonce =
      GasValue.num env.txCount
  ∧ (getTransactionData st env fromA toA options).1.gasPrice =
      GasValue.promise env.gasPriceResult
  ∧ (getTransactionData st env fromA toA options).2.1.gasPrice =
      GasValue.promise env.gasPriceResult
  ∧ (getTransactionData st env fromA toA options).2.2 =
      [ChainEffect.txCountQuery, ChainEffect.gasPriceQuery, ChainEffect.blockQuery]
  ∧ (∀ b, env.latestBlock = some b →
      (getTransactionData st env fromA toA options).1.gasLimit =
        GasValue.num b.gasLimit)
  ∧ (env.latestBlock = none →
      (getTransactionData st env fromA toA options).1.gasLimit =
        GasValue.nullv) := by
  have hrun : getTransactionData st env fromA toA options =
      ({ fromAddr := fromA, toAddr := toA,
         nonce := GasValue.num env.txCount,
         gasPrice := GasValue.promise env.gasPriceResult,
         gasLimit := (getGasLimit
           { st with gasPrice := GasValue.promise env.gasPriceResult }
           env false).1,
         value := GasValue.nullv },
       (getGasLimit { st with gasPrice := GasValue.promise env.gasPriceResult }
         env false).2.1,
       [ChainEffect.txCountQuery, ChainEffect.gasPriceQuery,
        ChainEffect.blockQuery]) := by
    simp only [getTransactionData, getGasPrice, hn, hp, hl]
    simp [GasValue.truthy]
  refine ⟨?_, ?_, ?_, ?_, ?_, ?_⟩
  · rw [hrun]
  · rw [hrun]
  · rw [hrun]
    cases hb : env.latestBlock <;> simp [getGasLimit, hb]
  · rw [hrun]
  · intro b hb
    rw [hrun]
    simp [getGasLimit, hb]
  · intro hb
    rw [hrun]
    simp [getGasLimit, hb]

/-- C2 witness: with both defaults cached, empty options and a live
environment, the transaction fields are the fresh query results and all
three queries are issued. -/
theorem getTransactionData_freshQueries_witness :
    (getTransactionData cachedDefaults envA "0xme" "0xabc" emptyOpts).1.gasPrice =
      GasValue.promise (some 20)
  ∧ (getTransactionData cachedDefaults envA "0xme" "0xabc" emptyOpts).2.2 =
      [ChainEffect.txCountQuery, ChainEffect.gasPriceQuery, ChainEffect.blockQuery]
  ∧ (getTransactionData cachedDefaults envA "0xme" "0xabc" emptyOpts).1.gasLimit =
      GasValue.num 30000000 := by
  have h := getTransactionData_freshQueries cachedDefaults envA "0xme" "0xabc"
    emptyOpts rfl rfl rfl
  exact ⟨h.2.1, h.2.2.2.1, h.2.2.2.2.1 { gasLimit := 30000000 } rfl⟩

/-- C5 counterexample: with the sample contract registered, a plain
(non-array) object parameter is not passed as a single positional
argument as the claim states: the `typeof` branch spreads it as an
iterable, which throws (result `none`). -/
theorem call_objectParam_counterexample :
    call eeView "getUser" (JsVal.obj [("a", JsVal.num 1)]) "default" = none
  ∧ (none : Option (ContractHandle × String × CallShape)) ≠
      some (handle1, "getUser",
        CallShape.withArgs [JsVal.obj [("a", JsVal.num 1)]]) := by
  constructor
  · rfl
  · simp

/-- C5 (amended): for a registered contract, `call` dispatches by the
shape of `params`: `null` invokes with zero arguments, an array spreads
its elements positionally, any NON-OBJECT value is passed as a single
positional argument, and any other (non-array) object is also routed to
the spread branch, which throws for a plain object. -/
theorem call_dispatch (ee : EthereumExplorer) (method contractName : String)
    (handle : ContractHandle)
    (h : jsGet ee.contracts contractName = some handle) :
    call ee method JsVal.null contractName =
      some (handle, method, CallShape.noArgs)
  ∧ (∀ xs, call ee method (JsVal.arr xs) contractName =
      some (handle, method, CallShape.withArgs xs))
  ∧ (∀ p, p.typeof ≠ "object" →
      call ee method p contractName =
        some (handle, method, CallShape.withArgs [p]))
  ∧ (∀ fields, call ee method (JsVal.obj fields) contractName = none) := by
  refine ⟨?_, ?_, ?_, ?_⟩
  · simp [call, h, callArgShape, JsVal.isNull]
  · intro xs
    simp [call, h, callArgShape, JsVal.isNull, JsVal.typeof, JsVal.spreadArgs]
  · intro p hp
    have hnull : p.isNull = false := by
      cases p <;> first | rfl | exact absurd rfl hp
    simp [call, h, callArgShape, hnull, hp]
  · intro fields
    simp [call, h, callArgShape, JsVal.isNull, JsVal.typeof, JsVal.spreadArgs]

/-- C5 witness: on the registered sample contract, a `null` parameter
gives a zero-argument invocation, a two-element array spreads into two
positional arguments, and a bare string is a single positional
argument. -/
theorem call_dispatch_witness :
    call eeView "getUser" JsVal.null "default" =
      some (handle1, "getUser", CallShape.noArgs)
  ∧ call eeView "getUser" (JsVal.arr [JsVal.str "a", JsVal.str "b"]) "default" =
      some (handle1, "getUser",
        CallShape.withArgs [JsVal.str "a", JsVal.str "b"])
  ∧ call eeView "getUser" (JsVal.str "x") "default" =
      some (handle1, "getUser", CallShape.withArgs [JsVal.str "x"]) := by
  have h := call_dispatch eeView "getUser" "default" handle1 (by decide)
  exact ⟨h.1, h.2.1 [JsVal.str "a", JsVal.str "b"],
    h.2.2.1 (JsVal.str "x") (by decide)⟩

end EthExp
